import Mathlib

/-!
Verification development for the Chameleon-SRE repository.

Shallow embedding of the parts of the code that the specification talks
about: the command safety gate (src/utils.py, sanitize_command), the command
executor (src/tools.py, execute_k8s_command), the knowledge retriever
(rag/retriever.py, DocumentRetriever.retrieve / format_context), and the
agent control loop (src/state.py, src/agent.py).  Python strings are Lean
strings; Python `str.lower` is mapped character-wise (the command domain is
ASCII); Python floats carrying vector distances are modelled as rationals;
the external collaborators (LLM, subprocess, vector store, tool dispatch)
are abstracted as explicit function parameters.
-/

namespace Chameleon

/-! ### String helpers (Python `in`, `lower`, `startswith`) -/

/-- Character-wise lowercasing, the embedding of Python `str.lower` on the
ASCII command strings this code handles. -/
def strLower (s : String) : String := String.mk (s.data.map Char.toLower)

/-- Boolean list-level check that `needle` is a prefix of `hay`. -/
def startsWithL : List Char → List Char → Bool
  | [], _ => true
  | _ :: _, [] => false
  | a :: as, b :: bs => a == b && startsWithL as bs

/-- Boolean check that `needle` occurs as a contiguous sublist of `hay`. -/
def containsL (needle : List Char) : List Char → Bool
  | [] => needle.isEmpty
  | c :: rest => startsWithL needle (c :: rest) || containsL needle rest

/-- Embedding of the Python substring test `needle in hay`. -/
def strContains (hay needle : String) : Bool := containsL needle.data hay.data

/-- Embedding of Python `s.startswith(pre)`. -/
def strStartsWith (pre s : String) : Bool := startsWithL pre.data s.data

/-- The single-quote character, used in the gate error message. -/
def squote : String := String.singleton (Char.ofNat 39)

/-! ### Settings (src/config.py, class Settings)

Only the fields the modelled functions read.  Defaults follow the Field
declarations in config.py: allow_destructive_commands=False,
dry_run_mode=False, timeout_seconds=300, max_iterations=10. -/

structure Settings where
  allow_destructive_commands : Bool
  dry_run_mode : Bool
  timeout_seconds : Nat
  deriving DecidableEq, Repr

/-- The default configuration from config.py. -/
def defaultSettings : Settings :=
  { allow_destructive_commands := false, dry_run_mode := false, timeout_seconds := 300 }

/-- Configuration with the destructive override set (ALLOW_DESTRUCTIVE_COMMANDS=true). -/
def overrideSettings : Settings :=
  { allow_destructive_commands := true, dry_run_mode := false, timeout_seconds := 300 }

/-- Dry-run configuration (DRY_RUN_MODE=true). -/
def dryRunSettings : Settings :=
  { allow_destructive_commands := false, dry_run_mode := true, timeout_seconds := 300 }

/-! ### Command safety gate (src/utils.py, sanitize_command) -/

/-- The `dangerous_patterns` list of utils.py, in source order. -/
def dangerous_patterns : List String := ["rm -rf", "delete", "drain", "cordon", "taint"]

/-- The ValueError message raised for a matched pattern. -/
def danger_message (pattern : String) : String :=
  "Dangerous command detected: " ++ squote ++ pattern ++ squote ++
    ". Set ALLOW_DESTRUCTIVE_COMMANDS=true to enable."

/-- Embedding of utils.sanitize_command: lowercase the command, scan the
pattern list in order, and raise (model: return `Except.error`) on the first
pattern that occurs as a substring while the destructive override is unset;
otherwise return the command unchanged. -/
def sanitize_command (st : Settings) (command : String) : Except String String :=
  match dangerous_patterns.find?
      (fun p => strContains (strLower command) p && !st.allow_destructive_commands) with
  | some p => Except.error (danger_message p)
  | none => Except.ok command

/-! ### Output truncation (src/utils.py, format_kubectl_output) -/

/-- Embedding of utils.format_kubectl_output: split on newlines after
stripping, return the output unchanged when it fits, otherwise the first
`max_lines` lines plus a truncation note. -/
def format_kubectl_output (output : String) (max_lines : Nat) : String :=
  let lines := (output.trim).splitOn "\n"
  if lines.length ≤ max_lines then output
  else
    String.intercalate "\n" (lines.take max_lines) ++
      "\n\n... (" ++ toString (lines.length - max_lines) ++ " more lines truncated)"

/-! ### Command executor (src/tools.py, execute_k8s_command)

The subprocess collaborator is abstracted as a function from the command
string actually sent to a `ProcResult`: normal completion with exit code,
stdout and stderr; timeout (subprocess.TimeoutExpired); or an unexpected
exception carrying its formatted description.  The executor returns the
string the Python function returns, paired with `some sent` when the
collaborator was invoked with command `sent`, and `none` when it was never
invoked. -/

/-- Outcome of one external subprocess invocation. -/
inductive ProcResult where
  | completed (exitCode : Int) (stdout stderr : String)
  | timedOut
  | raised (msg : String)
  deriving DecidableEq, Repr

/-- The failure-marker prefix used by every error return in tools.py
(the literal bytes appearing in the source file). -/
def failure_marker : String := "‚ùå"

/-- The timeout message of tools.py. -/
def timeout_message (st : Settings) : String :=
  failure_marker ++ " Command timed out after " ++ toString st.timeout_seconds ++ " seconds"

/-- Lines 43-45 of tools.py: append the dry-run flag to the sanitized
command when dry-run mode is on and the ORIGINAL lowercased command does not
contain the substring "get". -/
def apply_dry_run (st : Settings) (command safe : String) : String :=
  if st.dry_run_mode && !(strContains (strLower command) "get") then
    safe ++ " --dry-run=client"
  else safe

/-- Embedding of tools.execute_k8s_command.  First component: the returned
string; second component: `some sent` iff the subprocess collaborator was
invoked, with the exact command string it received. -/
def execute_k8s_command (st : Settings) (client : String → ProcResult)
    (command : String) : String × Option String :=
  match sanitize_command st command with
  | Except.error e => (failure_marker ++ " " ++ e, none)
  | Except.ok safe0 =>
      let sent := apply_dry_run st command safe0
      match client sent with
      | ProcResult.timedOut => (timeout_message st, some sent)
      | ProcResult.raised m =>
          (failure_marker ++ " Unexpected error: " ++ m, some sent)
      | ProcResult.completed code out err =>
          if code ≠ 0 then
            (failure_marker ++ " Error: " ++ (if err = "" then "Unknown error" else err),
              some sent)
          else
            (format_kubectl_output
              (if out = "" then "Command executed successfully (no output)" else out) 50,
              some sent)

/-- A string is a failure result iff it starts with the failure marker. -/
def is_failure_message (r : String) : Bool := strStartsWith failure_marker r

/-! ### Knowledge retriever (rag/retriever.py) -/

/-- Document metadata as used by retriever.py (`metadata.get` with
defaults models the Python dict lookups). -/
structure Meta where
  topic : Option String
  source : Option String
  deriving DecidableEq, Repr

/-- The vector-store collaborator answer: parallel lists of documents,
metadata and L2 distances (results[...][0] in the Python). -/
structure QueryResults where
  documents : List String
  metadatas : List Meta
  distances : List ℚ
  deriving DecidableEq, Repr

/-- A retrieved document as assembled by DocumentRetriever.retrieve. -/
structure RDoc where
  content : String
  metadata : Meta
  relevance : ℚ
  distance : ℚ
  deriving DecidableEq, Repr

/-- Line 48 of retriever.py: relevance_score = 1.0 / (1.0 + distance). -/
def relevance (distance : ℚ) : ℚ := 1 / (1 + distance)

/-- Embedding of DocumentRetriever.retrieve, lines 42-59: zip the three
result lists, compute each relevance, and keep exactly the entries with
relevance_score >= (1 - min_relevance), preserving order. -/
def retrieve (results : QueryResults) (min_relevance : ℚ) : List RDoc :=
  ((results.documents.zip results.metadatas).zip results.distances).filterMap
    (fun x =>
      let rel := relevance x.2
      if (1 - min_relevance) ≤ rel then
        some { content := x.1.1, metadata := x.1.2, relevance := rel, distance := x.2 }
      else none)

/-- The header line of format_context: the literal of retriever.py line 79,
which starts with the private-use character U+F8FF (bytes EF A3 BF) followed
by the mojibake sequence, then the text — 29 characters in all. -/
def context_header : String :=
  String.singleton (Char.ofNat 0xF8FF) ++ "üìö Relevant Documentation:\n"

/-- The empty-input message of format_context. -/
def no_docs_message : String := "No relevant documentation found."

/-- The truncation marker of format_context, for `remaining` further results. -/
def trunc_marker (remaining : Nat) : String :=
  "\n... (truncated, " ++ toString remaining ++ " more results)"

/-- One rendered document: f-string of retriever.py line 88, with the
1-based index `i`. -/
def doc_text (i : Nat) (d : RDoc) : String :=
  "\n" ++ toString i ++ ". " ++ d.metadata.topic.getD "General" ++
    " (Source: " ++ d.metadata.source.getD "Unknown" ++ ")\n" ++ d.content ++ "\n"

/-- The document loop of format_context: `i` is the 1-based index of the
next document, `curLen` the running character count; on overflow emit the
truncation marker for the remaining documents (current one included) and
stop. -/
def format_context_aux (maxLength : Nat) : Nat → Nat → List RDoc → String
  | _, _, [] => ""
  | i, curLen, d :: rest =>
      let txt := doc_text i d
      if maxLength < curLen + txt.length then trunc_marker (rest.length + 1)
      else txt ++ format_context_aux maxLength (i + 1) (curLen + txt.length) rest

/-- Embedding of DocumentRetriever.format_context, lines 65-98. -/
def format_context (documents : List RDoc) (maxLength : Nat) : String :=
  if documents.isEmpty then no_docs_message
  else context_header ++ format_context_aux maxLength 1 context_header.length documents

/-! ### Agent state and control loop (src/state.py, src/agent.py)

The LLM collaborator is abstracted as a function from the accumulated
message list to an `LLMResult` (a successful response with content and a
tool-call list, or a raised exception carrying its description); the tool
dispatch of tool_node is abstracted as a function from a tool call to a
`ToolOutcome`.  The tool-call argument mapping is abstracted to one string
(the only read of it, `tool_args.get("query", "")`, becomes the string
itself).  The unused `cluster_state` dict field of AgentState is omitted. -/

/-- One tool call attached to an assistant message. -/
structure ToolCall where
  name : String
  args : String
  id : String
  deriving DecidableEq, Repr

/-- One message of the conversation history (user / assistant / tool);
messages without tool calls carry the empty list, matching the Python
`hasattr` + truthiness checks. -/
structure Message where
  role : String
  content : String
  tool_calls : List ToolCall
  deriving DecidableEq, Repr

/-- One entry of knowledge_context, the dict appended by tool_node for
read_rag_docs. -/
structure KEntry where
  query : String
  content : String
  deriving DecidableEq, Repr

/-- Embedding of state.AgentState (cluster_state omitted: never read). -/
structure AgentStateM where
  messages : List Message
  current_task : String
  error_log : List String
  iteration_count : Nat
  task_complete : Bool
  last_tool_output : String
  knowledge_context : List KEntry
  deriving DecidableEq, Repr

/-- Embedding of state.create_initial_state. -/
def create_initial_state (user_input : String) : AgentStateM :=
  { messages := [{ role := "user", content := user_input, tool_calls := [] }]
    current_task := user_input
    error_log := []
    iteration_count := 0
    task_complete := false
    last_tool_output := ""
    knowledge_context := [] }

/-- Embedding of state.should_continue (the error threshold 5 is the
hard-coded literal of state.py line 83). -/
def should_continue (s : AgentStateM) (max_iterations : Nat) : Bool :=
  if s.task_complete then false
  else if max_iterations ≤ s.iteration_count then false
  else if 5 ≤ s.error_log.length then false
  else true

/-- The completion-signal keywords of agent.py line 75. -/
def completion_keywords : List String := ["complete", "done", "finished", "resolved"]

/-- Keyword sniffing of agent.py lines 72-76. -/
def has_completion_keyword (content : String) : Bool :=
  completion_keywords.any (fun k => strContains (strLower content) k)

/-- Result of one inference-collaborator invocation. -/
inductive LLMResult where
  | success (content : String) (tool_calls : List ToolCall)
  | failure (msg : String)
  deriving DecidableEq, Repr

/-- A response carrying a well-formed action request (at least one tool call). -/
def isActionResponse : LLMResult → Bool
  | LLMResult.success _ tcs => !tcs.isEmpty
  | LLMResult.failure _ => false

/-- Embedding of agent.agent_node for one already-obtained collaborator
response: on success append the response, increment iteration_count, and
set task_complete when a tool-free response carries a completion keyword;
on a raised exception append the error to error_log and append the
synthetic apology message, leaving iteration_count unchanged. -/
def agent_node (resp : LLMResult) (s : AgentStateM) : AgentStateM :=
  match resp with
  | LLMResult.success content tcs =>
      let s1 := { s with
        messages := s.messages ++ [{ role := "assistant", content := content, tool_calls := tcs }]
        iteration_count := s.iteration_count + 1 }
      if tcs.isEmpty && has_completion_keyword content then
        { s1 with task_complete := true }
      else s1
  | LLMResult.failure err =>
      { s with
        error_log := s.error_log ++ ["Agent reasoning failed: " ++ err]
        messages := s.messages ++
          [{ role := "assistant"
             content := "I encountered an error while thinking: " ++ err ++
               ". Let me try a different approach."
             tool_calls := [] }] }

/-- Outcome of dispatching one tool call inside tool_node. -/
inductive ToolOutcome where
  | ok (result : String)
  | notFound
  | exc (msg : String)
  deriving DecidableEq, Repr

/-- The body of the tool-call loop of agent.tool_node for one call. -/
def tool_step (dispatch : ToolCall → ToolOutcome) (s : AgentStateM) (tc : ToolCall) :
    AgentStateM :=
  match dispatch tc with
  | ToolOutcome.ok r =>
      let s1 := { s with
        last_tool_output := r
        messages := s.messages ++ [{ role := "tool", content := r, tool_calls := [] }] }
      if tc.name = "read_rag_docs" then
        { s1 with knowledge_context := s1.knowledge_context ++ [{ query := tc.args, content := r }] }
      else s1
  | ToolOutcome.notFound =>
      { s with
        error_log := s.error_log ++ ["Tool " ++ tc.name ++ " not found"]
        messages := s.messages ++
          [{ role := "tool", content := "ERROR: Tool " ++ tc.name ++ " not found",
             tool_calls := [] }] }
  | ToolOutcome.exc m =>
      { s with
        error_log := s.error_log ++ ["Tool " ++ tc.name ++ " failed: " ++ m]
        messages := s.messages ++
          [{ role := "tool", content := "ERROR: Tool " ++ tc.name ++ " failed: " ++ m,
             tool_calls := [] }] }

/-- Embedding of agent.tool_node: execute every tool call of the last
message in order (no-op when the last message carries none; the Python
indexes messages[-1], which is never empty on any reachable state). -/
def tool_node (dispatch : ToolCall → ToolOutcome) (s : AgentStateM) : AgentStateM :=
  match s.messages.getLast? with
  | none => s
  | some m => if m.tool_calls.isEmpty then s else m.tool_calls.foldl (tool_step dispatch) s

/-- The two targets of the conditional edge out of the agent node. -/
inductive Route where
  | tools
  | finish
  deriving DecidableEq, Repr

/-- Embedding of agent.should_continue_routing. -/
def should_continue_routing (max_iterations : Nat) (s : AgentStateM) : Route :=
  if !(should_continue s max_iterations) then Route.finish
  else if s.task_complete then Route.finish
  else
    match s.messages.getLast? with
    | some m => if !m.tool_calls.isEmpty then Route.tools else Route.finish
    | none => Route.finish

/-- Embedding of the compiled LangGraph of agent.create_agent_graph, run
with explicit fuel: entry point is the agent node; the conditional edge
routes to the tool node or to END; the tool node always returns to the
agent node.  Returns `some finalState` when END is reached within `fuel`
agent steps, `none` otherwise. -/
def loopRun (max_iterations : Nat) (oracle : List Message → LLMResult)
    (dispatch : ToolCall → ToolOutcome) : Nat → AgentStateM → Option AgentStateM
  | 0, _ => none
  | fuel + 1, s =>
      match should_continue_routing max_iterations (agent_node (oracle s.messages) s) with
      | Route.finish => some (agent_node (oracle s.messages) s)
      | Route.tools =>
          loopRun max_iterations oracle dispatch fuel
            (tool_node dispatch (agent_node (oracle s.messages) s))

/-! ## Theorems -/

/-! ### Safety gate: C1, C2, C7 -/

/-- C1: the claim says every command containing one of the shell
metacharacters is BLOCKED for every configuration.  Evaluating the gate of
utils.py at concrete failing inputs: commands containing a pipe, a double
ampersand, a semicolon, and a command substitution all pass the gate
unchanged under the default configuration, because `dangerous_patterns`
contains no metacharacter entry — even though tests/test_tools.py asserts
these very commands must be rejected.  The executor then runs them with
`shell=True`, so the metacharacters take effect. -/
theorem gate_passes_shell_metacharacters :
    sanitize_command defaultSettings "kubectl get pods | grep nginx" =
      Except.ok "kubectl get pods | grep nginx" ∧
    sanitize_command defaultSettings "kubectl get pods && kubectl get svc" =
      Except.ok "kubectl get pods && kubectl get svc" ∧
    sanitize_command defaultSettings "kubectl get pods; kubectl get svc" =
      Except.ok "kubectl get pods; kubectl get svc" ∧
    sanitize_command defaultSettings "kubectl get pods $(whoami)" =
      Except.ok "kubectl get pods $(whoami)" :=
  ⟨rfl, rfl, rfl, rfl⟩

/-- C2 counterexample: with the destructive override set
(ALLOW_DESTRUCTIVE_COMMANDS=true) the namespace-level deletion of
Scenario B passes the gate, contradicting the claim that it is blocked
regardless of the override. -/
theorem delete_namespace_allowed_with_override :
    sanitize_command overrideSettings "delete namespace production" =
      Except.ok "delete namespace production" :=
  rfl

/-- C2 amended: any command containing the substring "delete"
(case-insensitively) — namespace-level deletion and bulk deletion
included — is blocked exactly when the destructive override is unset;
with the override set it is allowed, because the override exempts every
dangerous pattern uniformly. -/
theorem delete_blocked_iff_override_unset (st : Settings) (cmd : String)
    (h : strContains (strLower cmd) "delete" = true) :
    (st.allow_destructive_commands = false →
      ∃ p, p ∈ dangerous_patterns ∧
        sanitize_command st cmd = Except.error (danger_message p)) ∧
    (st.allow_destructive_commands = true → sanitize_command st cmd = Except.ok cmd) := by
  constructor
  · intro hoff
    have hsome : (dangerous_patterns.find?
        (fun p => strContains (strLower cmd) p && !st.allow_destructive_commands)).isSome := by
      rw [List.find?_isSome]
      exact ⟨"delete", by simp [dangerous_patterns], by simp [h, hoff]⟩
    obtain ⟨q, hq⟩ := Option.isSome_iff_exists.mp hsome
    exact ⟨q, List.mem_of_find?_eq_some hq, by simp [sanitize_command, hq]⟩
  · intro hon
    have hnone : dangerous_patterns.find?
        (fun p => strContains (strLower cmd) p && !st.allow_destructive_commands) = none :=
      List.find?_eq_none.mpr (fun x _ => by simp [hon])
    simp [sanitize_command, hnone]

/-- C2 witness: the Scenario B command under the default configuration. -/
theorem delete_blocked_iff_override_unset_witness :
    strContains (strLower "delete namespace production") "delete" = true ∧
    ∃ p, p ∈ dangerous_patterns ∧
      sanitize_command defaultSettings "delete namespace production" =
        Except.error (danger_message p) :=
  ⟨by decide,
    (delete_blocked_iff_override_unset defaultSettings "delete namespace production"
      (by decide)).1 rfl⟩

/-- C7 counterexample: a read-verb command with no metacharacters whose
argument contains the substring "delete" is blocked under the default
configuration, contradicting the claim that all such commands are ALLOWED
for every argument string. -/
theorem read_verb_command_blocked_by_argument_substring :
    sanitize_command defaultSettings "kubectl get pods-to-delete" =
      Except.error (danger_message "delete") :=
  rfl

/-- C7 amended: the gate inspects only the five substrings of
`dangerous_patterns` (it never inspects verbs or metacharacters), so a
command is ALLOWED — for every configuration — provided its lowercased text
contains none of those substrings; this covers all get/describe/logs/top
commands whose arguments avoid the substrings. -/
theorem clean_commands_allowed (st : Settings) (cmd : String)
    (h : ∀ p ∈ dangerous_patterns, strContains (strLower cmd) p = false) :
    sanitize_command st cmd = Except.ok cmd := by
  have hnone : dangerous_patterns.find?
      (fun p => strContains (strLower cmd) p && !st.allow_destructive_commands) = none :=
    List.find?_eq_none.mpr (fun x hx => by simp [h x hx])
  simp [sanitize_command, hnone]

/-- C7 witness: a plain read command is allowed. -/
theorem clean_commands_allowed_witness :
    (∀ p ∈ dangerous_patterns, strContains (strLower "kubectl get pods -n default") p = false) ∧
    sanitize_command defaultSettings "kubectl get pods -n default" =
      Except.ok "kubectl get pods -n default" :=
  ⟨by decide, clean_commands_allowed defaultSettings "kubectl get pods -n default" (by decide)⟩

/-! ### Knowledge retriever: C4, C8 -/

/-- The Scenario C store: one document with topic ImagePullBackOff at
distance 0.1. -/
def scenario_store : QueryResults :=
  { documents := ["Common causes of ImagePullBackOff and how to fix them."]
    metadatas := [{ topic := some "ImagePullBackOff", source := some "k8s-docs" }]
    distances := [1/10] }

/-- C4: the claim (and Scenario C of the spec) says the document at
distance 0.1 has relevance 1/(1+0.1) ≈ 0.909 and is INCLUDED when
min_relevance = 0.0.  The relevance computation is as claimed, but the
filter of retriever.py line 50 keeps an entry only when
relevance >= 1 - min_relevance = 1, and 10/11 < 1, so retrieve returns the
empty list: the document is dropped.  This contradicts the docstring of
retrieve, which calls the parameter a minimum relevance score. -/
theorem retrieval_filter_drops_scenario_document :
    relevance (1/10) = 10/11 ∧
    (10 : ℚ)/11 < 1 ∧
    retrieve scenario_store 0 = [] := by
  refine ⟨by norm_num [relevance], by norm_num, ?_⟩
  have hcond : ¬ ((1 : ℚ) - 0 ≤ relevance (1/10)) := by norm_num [relevance]
  simp only [retrieve, scenario_store, List.zip, List.zipWith, List.filterMap]
  rw [if_neg hcond]

/-- A sample retrieved document used by the format_context theorems. -/
def sample_doc : RDoc :=
  { content := "Check the image name and the registry credentials."
    metadata := { topic := some "ImagePullBackOff", source := some "k8s-docs" }
    relevance := 10/11
    distance := 1/10 }

/-- C8 counterexample: at maxLength = 0 with one document the rendered
string is the full header followed by a truncation marker, so its length
exceeds maxLength by more than the one appended truncation marker (the
header alone already overflows the budget); the claimed bound fails for
small maxLength. -/
theorem format_context_header_exceeds_budget :
    format_context [sample_doc] 0 = context_header ++ trunc_marker 1 ∧
    0 + (trunc_marker 1).length < (format_context [sample_doc] 0).length :=
  ⟨rfl, by decide⟩

/-- Bound for the document loop: whenever the running length is within
budget, the rendered tail splits into a body that keeps the running total
within `maxLength` plus at most one truncation marker. -/
theorem format_context_aux_bound (maxLength : Nat) :
    ∀ (docs : List RDoc) (i curLen : Nat), curLen ≤ maxLength →
      ∃ body tail, format_context_aux maxLength i curLen docs = body ++ tail ∧
        curLen + body.length ≤ maxLength ∧
        (tail = "" ∨ ∃ k, tail = trunc_marker k) := by
  intro docs
  induction docs with
  | nil =>
      intro i curLen h
      exact ⟨"", "", by simp [format_context_aux], by simpa using h, Or.inl rfl⟩
  | cons d rest ih =>
      intro i curLen h
      by_cases hov : maxLength < curLen + (doc_text i d).length
      · refine ⟨"", trunc_marker (rest.length + 1), ?_, by simpa using h, Or.inr ⟨_, rfl⟩⟩
        simp [format_context_aux, hov]
      · push_neg at hov
        obtain ⟨body, tail, heq, hlen, htail⟩ := ih (i + 1) (curLen + (doc_text i d).length) hov
        refine ⟨doc_text i d ++ body, tail, ?_, ?_, htail⟩
        · rw [String.append_assoc]
          simp only [format_context_aux]
          rw [if_neg (by omega), heq]
        · have hl := String.length_append (doc_text i d) body
          omega

/-- C8 amended: for every NONEMPTY document list and every maxLength at
least the header length (29 characters), the rendered context is a body of
at most maxLength characters followed by at most one truncation marker;
identical inputs trivially yield the identical string since the renderer is
a pure function.  (For the empty list the output is the fixed string
"No relevant documentation found." independent of maxLength, and for
maxLength below the header length the header itself overflows the budget,
as the counterexample shows.) -/
theorem format_context_length_bounded (documents : List RDoc) (maxLength : Nat)
    (hne : documents ≠ []) (hhdr : context_header.length ≤ maxLength) :
    ∃ body tail, format_context documents maxLength = body ++ tail ∧
      body.length ≤ maxLength ∧ (tail = "" ∨ ∃ k, tail = trunc_marker k) := by
  obtain ⟨body, tail, heq, hlen, htail⟩ :=
    format_context_aux_bound maxLength documents 1 context_header.length hhdr
  have hemp : documents.isEmpty = false := by
    cases documents with
    | nil => exact absurd rfl hne
    | cons a l => rfl
  refine ⟨context_header ++ body, tail, ?_, ?_, htail⟩
  · rw [String.append_assoc]
    simp only [format_context, hemp, Bool.false_eq_true, if_false, heq]
  · have hl := String.length_append context_header body
    omega

/-- C8 witness: one document under a 200-character budget. -/
theorem format_context_length_bounded_witness :
    ([sample_doc] ≠ ([] : List RDoc)) ∧ context_header.length ≤ 200 ∧
    ∃ body tail, format_context [sample_doc] 200 = body ++ tail ∧
      body.length ≤ 200 ∧ (tail = "" ∨ ∃ k, tail = trunc_marker k) :=
  ⟨by decide, by decide, format_context_length_bounded [sample_doc] 200 (by decide) (by decide)⟩

/-! ### Command executor: C6, C10 -/

/-- A prefix starts every string it is appended to. -/
theorem startsWithL_append (a b : List Char) : startsWithL a (a ++ b) = true := by
  induction a with
  | nil => rfl
  | cons c cs ih => simp [startsWithL, ih]

/-- When the gate accepts, the executor invokes the collaborator exactly
with the dry-run-adjusted command. -/
theorem execute_ok_snd (st : Settings) (client : String → ProcResult) (cmd s : String)
    (hs : sanitize_command st cmd = Except.ok s) :
    (execute_k8s_command st client cmd).2 = some (apply_dry_run st cmd s) := by
  simp only [execute_k8s_command, hs]
  cases client (apply_dry_run st cmd s) with
  | completed code out err => by_cases h : code ≠ 0 <;> simp [h]
  | timedOut => rfl
  | raised m => rfl

/-- A demonstration subprocess collaborator used by witnesses. -/
def demoClient : String → ProcResult := fun _ => ProcResult.completed 0 "pod restarted" ""

/-- C6: when the gate raises, the executor returns the failure-marked
message without invoking the subprocess collaborator (second component
`none`); when the gate accepts, the collaborator is invoked exactly once
with the adjusted command, and both abnormal collaborator outcomes —
timeout and a raised exception — are converted into returned strings, so no
path propagates an exception (the embedding is a total function into plain
result pairs). -/
theorem executor_blocked_and_nonthrowing (st : Settings) (client : String → ProcResult)
    (cmd : String) :
    (∀ e, sanitize_command st cmd = Except.error e →
      execute_k8s_command st client cmd = (failure_marker ++ " " ++ e, none) ∧
      is_failure_message (execute_k8s_command st client cmd).1 = true) ∧
    (∀ s, sanitize_command st cmd = Except.ok s →
      (execute_k8s_command st client cmd).2 = some (apply_dry_run st cmd s) ∧
      (client (apply_dry_run st cmd s) = ProcResult.timedOut →
        (execute_k8s_command st client cmd).1 = timeout_message st) ∧
      (∀ m, client (apply_dry_run st cmd s) = ProcResult.raised m →
        (execute_k8s_command st client cmd).1 =
          failure_marker ++ " Unexpected error: " ++ m)) := by
  constructor
  · intro e he
    have hval : execute_k8s_command st client cmd = (failure_marker ++ " " ++ e, none) := by
      simp [execute_k8s_command, he]
    refine ⟨hval, ?_⟩
    rw [hval]
    show strStartsWith failure_marker (failure_marker ++ " " ++ e) = true
    simp only [strStartsWith, String.data_append, List.append_assoc]
    exact startsWithL_append failure_marker.data (" ".data ++ e.data)
  · intro s hs
    refine ⟨execute_ok_snd st client cmd s hs, ?_, ?_⟩
    · intro htm
      simp [execute_k8s_command, hs, htm]
    · intro m hm
      simp [execute_k8s_command, hs, hm]

/-- C6 witness: a blocked destructive command under the default
configuration returns the failure message and never reaches the
collaborator. -/
theorem executor_blocked_and_nonthrowing_witness :
    sanitize_command defaultSettings "kubectl delete pod crashloop" =
      Except.error (danger_message "delete") ∧
    (execute_k8s_command defaultSettings demoClient "kubectl delete pod crashloop" =
      (failure_marker ++ " " ++ danger_message "delete", none) ∧
    is_failure_message
      (execute_k8s_command defaultSettings demoClient "kubectl delete pod crashloop").1 = true) :=
  ⟨rfl,
    (executor_blocked_and_nonthrowing defaultSettings demoClient
      "kubectl delete pod crashloop").1 (danger_message "delete") rfl⟩

/-- C10: with dry-run mode on, the flag " --dry-run=client" is appended to
the sanitized command iff the lowercased ORIGINAL command does not contain
the substring "get" anywhere — so a command whose text merely contains
"get" (such as inside "target") is sent for real execution — and the flag
logic runs only after the safety gate: a blocked command is never sent at
all, dry-run or not. -/
theorem dry_run_flag_appended_iff_no_get (st : Settings) (client : String → ProcResult)
    (cmd : String) (hdry : st.dry_run_mode = true) :
    (∀ s, sanitize_command st cmd = Except.ok s →
      strContains (strLower cmd) "get" = true →
      (execute_k8s_command st client cmd).2 = some s) ∧
    (∀ s, sanitize_command st cmd = Except.ok s →
      strContains (strLower cmd) "get" = false →
      (execute_k8s_command st client cmd).2 = some (s ++ " --dry-run=client")) ∧
    (∀ e, sanitize_command st cmd = Except.error e →
      (execute_k8s_command st client cmd).2 = none) := by
  refine ⟨?_, ?_, ?_⟩
  · intro s hs hget
    rw [execute_ok_snd st client cmd s hs]
    simp [apply_dry_run, hdry, hget]
  · intro s hs hget
    rw [execute_ok_snd st client cmd s hs]
    simp [apply_dry_run, hdry, hget]
  · intro e he
    simp [execute_k8s_command, he]

/-- C10 witness: a mutating command whose text contains "get" inside the
resource name "target-app" is sent without the dry-run flag even though
dry-run mode is on. -/
theorem dry_run_flag_appended_iff_no_get_witness :
    dryRunSettings.dry_run_mode = true ∧
    sanitize_command dryRunSettings "kubectl rollout restart deployment/target-app" =
      Except.ok "kubectl rollout restart deployment/target-app" ∧
    strContains (strLower "kubectl rollout restart deployment/target-app") "get" = true ∧
    (execute_k8s_command dryRunSettings demoClient
        "kubectl rollout restart deployment/target-app").2 =
      some "kubectl rollout restart deployment/target-app" :=
  ⟨rfl, rfl, by decide,
    (dry_run_flag_appended_iff_no_get dryRunSettings demoClient
      "kubectl rollout restart deployment/target-app" rfl).1
      "kubectl rollout restart deployment/target-app" rfl (by decide)⟩

/-! ### Agent control loop: C5, C9, C3 -/

/-- C5: whenever the error log has reached five entries — the hard-coded
maxConsecutiveErrors of state.py — the termination guard refuses to
continue and the conditional edge routes to END, regardless of
task_complete, iteration count, or the pending messages: no further THINK
or ACT step is entered after this guard evaluation. -/
theorem error_threshold_forces_finish (s : AgentStateM) (max_iterations : Nat)
    (h : 5 ≤ s.error_log.length) :
    should_continue s max_iterations = false ∧
    should_continue_routing max_iterations s = Route.finish := by
  have h1 : should_continue s max_iterations = false := by
    simp [should_continue, h]
  exact ⟨h1, by simp [should_continue_routing, h1]⟩

/-- A state with five accumulated errors and the task still incomplete. -/
def errorFiveState : AgentStateM :=
  { create_initial_state "diagnose the failing pods" with
    error_log := ["e1", "e2", "e3", "e4", "e5"] }

/-- C5 witness: the guard stops at the default iteration limit 10 with five
errors and task_complete = false. -/
theorem error_threshold_forces_finish_witness :
    5 ≤ errorFiveState.error_log.length ∧
    (should_continue errorFiveState 10 = false ∧
      should_continue_routing 10 errorFiveState = Route.finish) :=
  ⟨by decide, error_threshold_forces_finish errorFiveState 10 (by decide)⟩

/-- C9 counterexample: a THINK step in which the inference collaborator
fails does NOT increment the iteration counter — agent_node catches the
exception, appends to error_log, and returns with iteration_count
unchanged — so after this one executed Think step the counter is 0, not 1
as the claim requires. -/
theorem failed_think_does_not_increment_iteration :
    (agent_node (LLMResult.failure "inference unavailable")
        (create_initial_state "diagnose")).iteration_count ≠
      (create_initial_state "diagnose").iteration_count + 1 := by
  decide

/-- C9 amended: iteration_count is incremented exactly once per SUCCESSFUL
Think step (one in which the collaborator returned a response); a failing
Think step leaves the counter unchanged and instead appends exactly one
entry to error_log, so after a run the counter equals the number of
successful Think steps. -/
theorem iteration_counts_successful_thinks (s : AgentStateM) (content : String)
    (tcs : List ToolCall) (err : String) :
    (agent_node (LLMResult.success content tcs) s).iteration_count =
      s.iteration_count + 1 ∧
    (agent_node (LLMResult.failure err) s).iteration_count = s.iteration_count ∧
    (agent_node (LLMResult.failure err) s).error_log.length =
      s.error_log.length + 1 := by
  refine ⟨?_, rfl, by simp [agent_node]⟩
  simp only [agent_node]
  split <;> rfl

/-- agent_node increases the iteration counter by at most one. -/
theorem agent_node_iter_le (r : LLMResult) (s : AgentStateM) :
    (agent_node r s).iteration_count ≤ s.iteration_count + 1 := by
  cases r with
  | success c tcs =>
      simp only [agent_node]
      split <;> simp
  | failure e => simp [agent_node]

/-- On a response carrying an action request, agent_node increments the
counter by exactly one. -/
theorem agent_node_action_iter (r : LLMResult) (s : AgentStateM)
    (h : isActionResponse r = true) :
    (agent_node r s).iteration_count = s.iteration_count + 1 := by
  cases r with
  | success c tcs =>
      simp only [agent_node]
      split <;> rfl
  | failure e => simp [isActionResponse] at h

/-- One tool-call execution never touches the iteration counter. -/
theorem tool_step_iter (d : ToolCall → ToolOutcome) (s : AgentStateM) (tc : ToolCall) :
    (tool_step d s tc).iteration_count = s.iteration_count := by
  cases hd : d tc
  · simp only [tool_step, hd]
    split <;> rfl
  · simp [tool_step, hd]
  · simp [tool_step, hd]

/-- Folding tool-call executions never touches the iteration counter. -/
theorem foldl_tool_step_iter (d : ToolCall → ToolOutcome) :
    ∀ (l : List ToolCall) (s : AgentStateM),
      (l.foldl (tool_step d) s).iteration_count = s.iteration_count
  | [], _ => rfl
  | tc :: l, s => by
      rw [List.foldl_cons, foldl_tool_step_iter d l, tool_step_iter]

/-- The ACT node never touches the iteration counter. -/
theorem tool_node_iter (d : ToolCall → ToolOutcome) (s : AgentStateM) :
    (tool_node d s).iteration_count = s.iteration_count := by
  simp only [tool_node]
  cases s.messages.getLast? with
  | none => rfl
  | some m =>
      by_cases hm : m.tool_calls.isEmpty
      · simp [hm]
      · simp [hm, foldl_tool_step_iter]

/-- Routing to the tool node happens only while the guard allows
continuing. -/
theorem routing_tools_continue (m : Nat) (s : AgentStateM)
    (h : should_continue_routing m s = Route.tools) : should_continue s m = true := by
  cases hsc : should_continue s m with
  | true => rfl
  | false => simp [should_continue_routing, hsc] at h

/-- The guard allows continuing only strictly below the iteration limit. -/
theorem should_continue_iter_lt (s : AgentStateM) (m : Nat)
    (h : should_continue s m = true) : s.iteration_count < m := by
  by_contra hge
  push_neg at hge
  simp [should_continue, hge] at h

/-- Any terminated run starting strictly below the iteration limit ends at
or below the limit. -/
theorem loopRun_iter_le (m : Nat) (oracle : List Message → LLMResult)
    (dispatch : ToolCall → ToolOutcome) :
    ∀ (fuel : Nat) (s final : AgentStateM), s.iteration_count < m →
      loopRun m oracle dispatch fuel s = some final → final.iteration_count ≤ m := by
  intro fuel
  induction fuel with
  | zero =>
      intro s final _ h
      simp [loopRun] at h
  | succ fuel ih =>
      intro s final hlt h
      simp only [loopRun] at h
      cases hr : should_continue_routing m (agent_node (oracle s.messages) s) with
      | finish =>
          simp only [hr] at h
          have hfin : agent_node (oracle s.messages) s = final := Option.some.inj h
          have hle := agent_node_iter_le (oracle s.messages) s
          rw [hfin] at hle
          omega
      | tools =>
          simp only [hr] at h
          have hcont := routing_tools_continue m _ hr
          have hlt1 := should_continue_iter_lt _ m hcont
          exact ih (tool_node dispatch (agent_node (oracle s.messages) s)) final
            (by rw [tool_node_iter]; exact hlt1) h

/-- With an inference collaborator that always answers with an action
request, fuel covering the remaining iterations suffices for the loop to
reach END. -/
theorem loopRun_terminates (m : Nat) (oracle : List Message → LLMResult)
    (dispatch : ToolCall → ToolOutcome)
    (hact : ∀ msgs, isActionResponse (oracle msgs) = true) :
    ∀ (fuel : Nat) (s : AgentStateM), s.iteration_count < m →
      m ≤ s.iteration_count + fuel →
      (loopRun m oracle dispatch fuel s).isSome = true := by
  intro fuel
  induction fuel with
  | zero =>
      intro s h1 h2
      omega
  | succ fuel ih =>
      intro s h1 h2
      simp only [loopRun]
      have hiter1 : (agent_node (oracle s.messages) s).iteration_count =
          s.iteration_count + 1 := agent_node_action_iter _ _ (hact _)
      cases hr : should_continue_routing m (agent_node (oracle s.messages) s) with
      | finish => simp [hr]
      | tools =>
          simp only [hr]
          apply ih
          · rw [tool_node_iter]
            exact should_continue_iter_lt _ m (routing_tools_continue m _ hr)
          · rw [tool_node_iter, hiter1]
            omega

/-- C3: for every run from a fresh state, (a) whenever the graph reaches
END the iteration counter is at most max_iterations — the counter is
monotone and only the agent node moves it, so no state of the run ever
exceeds the limit — and (b) with an inference collaborator that returns a
well-formed ActionRequest on every THINK step, fuel equal to max_iterations
already suffices for the loop to reach END: the run is bounded. -/
theorem loop_bounded_and_terminates (m : Nat) (oracle : List Message → LLMResult)
    (dispatch : ToolCall → ToolOutcome) (hpos : 0 < m) :
    (∀ (input : String) (fuel : Nat) (final : AgentStateM),
      loopRun m oracle dispatch fuel (create_initial_state input) = some final →
      final.iteration_count ≤ m) ∧
    ((∀ msgs, isActionResponse (oracle msgs) = true) →
      ∀ input : String,
        (loopRun m oracle dispatch m (create_initial_state input)).isSome = true) := by
  constructor
  · intro input fuel final h
    exact loopRun_iter_le m oracle dispatch fuel _ final hpos h
  · intro hact input
    exact loopRun_terminates m oracle dispatch hact m _ hpos (by simp [create_initial_state])

/-- A demonstration inference collaborator that always requests a tool
call. -/
def demoOracle : List Message → LLMResult :=
  fun _ => LLMResult.success "inspecting the cluster"
    [{ name := "execute_k8s_command", args := "kubectl get pods", id := "call-1" }]

/-- A demonstration tool dispatcher. -/
def demoDispatch : ToolCall → ToolOutcome := fun _ => ToolOutcome.ok "3 pods Running"

/-- C3 witness: with the default limit 10 and a collaborator that always
returns an action request, the loop reaches END within 10 agent steps. -/
theorem loop_bounded_and_terminates_witness :
    0 < 10 ∧
    (loopRun 10 demoOracle demoDispatch 10 (create_initial_state "check the pods")).isSome
      = true :=
  ⟨by decide,
    (loop_bounded_and_terminates 10 demoOracle demoDispatch (by decide)).2
      (fun _ => rfl) "check the pods"⟩

end Chameleon
